import Mathlib

set_option maxRecDepth 40000

/-
Verification of the BrickGame platform (FSM engine, Tetris core, Snake core,
game registry) against its design specification.

Embedding conventions:
- C structs become Lean structures; int fields that stay non-negative become Nat,
  coordinates (which may go negative) become Int.
- Callbacks (function pointers receiving the context) become Option (C -> C).
- The C library rand() / std::mt19937 stream is modelled as an oracle
  (a fixed function Nat -> Nat indexed by a counter carried in the state);
  theorems about randomised operations quantify over the oracle.
- File I/O (high-score persistence) is out of scope of the claims and not modelled.
-/

/- ===================== Generic FSM engine (src/src/fsm/s21_fsm.c) ===================== -/

/-- Embedding of fsm_transition_t: rule (src, event) -> dst with optional
exit/enter callbacks acting on the user context. -/
structure fsm_transition_t (S E C : Type) where
  src : S
  event : E
  dst : S
  on_exit : Option (C → C)
  on_enter : Option (C → C)

/-- Embedding of fsm_t: transition table, current state, user context and the
re-entrancy guard flag. -/
structure fsm_t (S E C : Type) where
  transitions : List (fsm_transition_t S E C)
  current : S
  ctx : C
  processing : Bool

/-- Invoke an optional callback on the context (a null pointer is a no-op). -/
def applyCb {C : Type} : Option (C → C) → C → C
  | none, c => c
  | some f, c => f c

/-- The scan loop shared by fsm_process_event and fsm_update: first table entry
matching (state, event), in table order. -/
def fsm_find {S E C : Type} [DecidableEq S] [DecidableEq E]
    (ts : List (fsm_transition_t S E C)) (s : S) (e : E) :
    Option (fsm_transition_t S E C) :=
  ts.find? fun t => decide (t.src = s ∧ t.event = e)

/-- Embedding of fsm_init: fails on an empty table, otherwise sets the current
state and clears the guard (no callbacks fired). -/
def fsm_init {S E C : Type} (ctx : C) (ts : List (fsm_transition_t S E C))
    (start_state : S) : Option (fsm_t S E C) :=
  if ts.isEmpty then none else some ⟨ts, start_state, ctx, false⟩

/-- Embedding of fsm_process_event. The C function sets the guard, scans for the
first entry matching (current, event); on a match it runs on_exit, assigns the
new state, runs on_enter, clears the guard and returns true; otherwise it clears
the guard and returns false, leaving the struct byte-identical. A call made
while the guard is set returns false at once. -/
def fsm_process_event {S E C : Type} [DecidableEq S] [DecidableEq E]
    (fsm : fsm_t S E C) (event : E) : fsm_t S E C × Bool :=
  if fsm.processing then (fsm, false)
  else
    match fsm_find fsm.transitions fsm.current event with
    | some t =>
        let c1 := applyCb t.on_exit fsm.ctx
        let c2 := applyCb t.on_enter c1
        ({ fsm with current := t.dst, ctx := c2, processing := false }, true)
    | none => (fsm, false)

/-- Embedding of fsm_update: same scan restricted to the reserved epsilon event
(FSM_EVENT_NONE, passed here explicitly as eNone); returns nothing. A call made
while the guard is set does nothing. -/
def fsm_update {S E C : Type} [DecidableEq S] [DecidableEq E]
    (eNone : E) (fsm : fsm_t S E C) : fsm_t S E C :=
  if fsm.processing then fsm
  else
    match fsm_find fsm.transitions fsm.current eNone with
    | some t =>
        let c1 := applyCb t.on_exit fsm.ctx
        let c2 := applyCb t.on_enter c1
        { fsm with current := t.dst, ctx := c2, processing := false }
    | none => fsm

/-- The first-match-wins transition relation of a table, as a state-fold step:
the destination of the first matching entry, or the unchanged state. -/
def fsm_step_state {S E C : Type} [DecidableEq S] [DecidableEq E]
    (ts : List (fsm_transition_t S E C)) (s : S) (e : E) : S :=
  match fsm_find ts s e with
  | some t => t.dst
  | none => s

/-- Process a finite sequence of events through fsm_process_event, keeping the
machine (the Boolean results are discarded). -/
def fsm_run_events {S E C : Type} [DecidableEq S] [DecidableEq E]
    (m : fsm_t S E C) (events : List E) : fsm_t S E C :=
  events.foldl (fun m e => (fsm_process_event m e).1) m

theorem fsm_process_event_transitions {S E C : Type} [DecidableEq S] [DecidableEq E]
    (m : fsm_t S E C) (e : E) :
    (fsm_process_event m e).1.transitions = m.transitions := by
  unfold fsm_process_event
  split
  · rfl
  · split <;> rfl

theorem fsm_process_event_processing {S E C : Type} [DecidableEq S] [DecidableEq E]
    (m : fsm_t S E C) (e : E) (h : m.processing = false) :
    (fsm_process_event m e).1.processing = false := by
  unfold fsm_process_event
  rw [h]
  simp only [Bool.false_eq_true, if_false]
  cases hf : fsm_find m.transitions m.current e <;> simp [hf, h]

theorem fsm_process_event_current {S E C : Type} [DecidableEq S] [DecidableEq E]
    (m : fsm_t S E C) (e : E) (h : m.processing = false) :
    (fsm_process_event m e).1.current = fsm_step_state m.transitions m.current e := by
  unfold fsm_process_event fsm_step_state
  rw [h]
  simp only [Bool.false_eq_true, if_false]
  cases hf : fsm_find m.transitions m.current e <;> simp [hf]

theorem fsm_run_events_current {S E C : Type} [DecidableEq S] [DecidableEq E]
    (events : List E) (m : fsm_t S E C) (h : m.processing = false) :
    (fsm_run_events m events).current =
      events.foldl (fsm_step_state m.transitions) m.current := by
  induction events generalizing m with
  | nil => rfl
  | cons e es ih =>
      have hT := fsm_process_event_transitions m e
      have hP := fsm_process_event_processing m e h
      have hC := fsm_process_event_current m e h
      calc (fsm_run_events m (e :: es)).current
          = (fsm_run_events (fsm_process_event m e).1 es).current := rfl
        _ = es.foldl (fsm_step_state (fsm_process_event m e).1.transitions)
              (fsm_process_event m e).1.current := ih _ hP
        _ = es.foldl (fsm_step_state m.transitions)
              (fsm_step_state m.transitions m.current e) := by rw [hT, hC]

/-- C3. For every transition table, start state and finite event sequence, the
current state of an initialized machine (guard clear) after running the
sequence through fsm_process_event equals the fold of the first-match-wins
transition relation of its table over the sequence; and whenever no table
entry matches the pair (current state, event), fsm_process_event reports
failure and returns the machine byte-identical (state and context unchanged). -/
theorem fsm_fold_semantics {S E C : Type} [DecidableEq S] [DecidableEq E]
    (m : fsm_t S E C) (events : List E) (e : E)
    (h : m.processing = false)
    (hu : fsm_find m.transitions m.current e = none) :
    (fsm_run_events m events).current =
        events.foldl (fsm_step_state m.transitions) m.current
      ∧ fsm_process_event m e = (m, false) := by
  refine ⟨fsm_run_events_current events m h, ?_⟩
  unfold fsm_process_event
  rw [h, hu]
  simp

/-- A two-entry demonstration table over numeric states/events, used to witness
the generic FSM theorems at a concrete input. -/
def fsmDemoTable : List (fsm_transition_t ℕ ℕ ℕ) :=
  [⟨0, 1, 2, none, none⟩, ⟨2, 1, 0, none, some (fun c => c + 1)⟩]

/-- The demonstration machine right after fsm_init: state 0, context 0, guard
clear. -/
def fsmDemo : fsm_t ℕ ℕ ℕ := ⟨fsmDemoTable, 0, 0, false⟩

/-- Witness for C3 at a concrete machine: two matched events then an unmatched
event 7. -/
theorem fsm_fold_semantics_witness :
    (fsm_run_events fsmDemo [1, 1, 5]).current =
        [1, 1, 5].foldl (fsm_step_state fsmDemoTable) 0
      ∧ fsm_process_event fsmDemo 7 = (fsmDemo, false) :=
  fsm_fold_semantics fsmDemo [1, 1, 5] 7 rfl rfl

/-- C4. A nested call issued while the same machine is inside a
process_event/update span (the guard flag is set for the whole span, so this is
exactly the machine an exit or enter callback observes) is rejected without
executing any transition or callback: the nested fsm_process_event returns
failure with the machine unchanged, and the nested fsm_update returns the
machine unchanged. -/
theorem fsm_reentrancy_rejected {S E C : Type} [DecidableEq S] [DecidableEq E]
    (m : fsm_t S E C) (e eNone : E) (h : m.processing = true) :
    fsm_process_event m e = (m, false) ∧ fsm_update eNone m = m := by
  unfold fsm_process_event fsm_update
  rw [h]
  exact ⟨rfl, rfl⟩

/-- The demonstration machine as observed from inside a callback: the
re-entrancy guard is set. -/
def fsmDemoBusy : fsm_t ℕ ℕ ℕ := ⟨fsmDemoTable, 0, 0, true⟩

/-- Witness for C4 at a concrete busy machine. -/
theorem fsm_reentrancy_rejected_witness :
    fsm_process_event fsmDemoBusy 1 = (fsmDemoBusy, false)
      ∧ fsm_update 0 fsmDemoBusy = fsmDemoBusy :=
  fsm_reentrancy_rejected fsmDemoBusy 1 0 rfl

/- ===================== Game registry (src/src/brick_game/common/s21_bgame.c) ===================== -/

/-- Modelled from the spec: the GAME_UNDEFINED member of GameId_t (the header
declaring the enum is not under src/). It is the id carried by an empty,
zero-initialized interface, hence the first enum member, value 0. -/
def GAME_UNDEFINED : ℤ := 0

/-- Embedding of GameInterface_t over an abstract instance type I. Only the
null-ness of the five function pointers and the outcome of create are observed
by the registry, so create is modelled by its result (none = null pointer,
some r = a function whose call yields r, where r = none means creation failed)
and the other four members by their presence. -/
structure GameInterface_t (I : Type) where
  id : ℤ
  create : Option (Option I)
  destroy : Option Unit
  input : Option Unit
  update : Option Unit
  get_info : Option Unit
deriving DecidableEq

/-- Embedding of the module state of s21_bgame.c: the registry array (list of
registered contracts in slot order) and the active (interface, instance) pair
of g_current; the C pair (iface, instance) is NULL/NULL or consistent at every
function boundary, modelled as an Option of the pair. -/
structure BgState (I : Type) where
  registry : List (GameInterface_t I)
  current : Option (GameInterface_t I × I)
deriving DecidableEq

/-- Capacity of the registry (BG_MAX_GAMES). -/
def BG_MAX_GAMES : ℕ := 8

/-- Embedding of bg_get_game: first registered entry with the requested id. -/
def bg_get_game {I : Type} (st : BgState I) (id : ℤ) : Option (GameInterface_t I) :=
  st.registry.find? fun e => decide (e.id = id)

/-- Embedding of bg_register_game: duplicate ids are ignored, registration past
the fixed capacity is silently dropped. -/
def bg_register_game {I : Type} (st : BgState I) (iface : GameInterface_t I) :
    BgState I :=
  if st.registry.any (fun e => decide (e.id = iface.id)) then st
  else if st.registry.length < BG_MAX_GAMES then
    { st with registry := st.registry ++ [iface] }
  else st

/-- The null-pointer validation of bg_switch_game: true when any of the five
contract functions is null. -/
def bg_iface_invalid {I : Type} (iface : GameInterface_t I) : Bool :=
  iface.create.isNone || iface.destroy.isNone || iface.get_info.isNone ||
    iface.input.isNone || iface.update.isNone

/-- The already-active test of bg_switch_game: an instance exists and the id of
the active interface equals the requested id. -/
def bg_same_active {I : Type} (st : BgState I) (id : ℤ) : Bool :=
  match st.current with
  | some p => decide (p.1.id = id)
  | none => false

/-- Embedding of bg_switch_game: reject an unregistered or GAME_UNDEFINED id
and a contract with a null function (leaving the state untouched); succeed at
once on the already-active id; otherwise destroy the prior instance, create the
new one, and activate the pair only on creation success (on failure both
active pointers are left null). -/
def bg_switch_game {I : Type} (st : BgState I) (id : ℤ) : BgState I × Bool :=
  match bg_get_game st id with
  | none => (st, false)
  | some iface =>
    if iface.id = GAME_UNDEFINED then (st, false)
    else if bg_iface_invalid iface then (st, false)
    else if bg_same_active st id then (st, true)
    else
      let st1 : BgState I := { st with current := none }
      match iface.create with
      | some (some inst) => ({ st1 with current := some (iface, inst) }, true)
      | _ => ({ st1 with current := none }, false)

/-- A well-formed contract with id 1 whose creation yields instance 7, used in
the registry scenarios. -/
def bgGoodIface : GameInterface_t ℕ :=
  ⟨1, some (some 7), some (), some (), some (), some ()⟩

/-- A contract with id 2 whose input function is null. -/
def bgNullFnIface : GameInterface_t ℕ :=
  ⟨2, some (some 8), some (), none, some (), some ()⟩

/-- A well-formed contract with id 3 whose creation always fails. -/
def bgFailCreateIface : GameInterface_t ℕ :=
  ⟨3, some none, some (), some (), some (), some ()⟩

/-- Registry state with all three demonstration contracts registered and the
id-1 game active (reached through the public API from the empty state). -/
def bgActive : BgState ℕ :=
  (bg_switch_game
    (bg_register_game
      (bg_register_game (bg_register_game ⟨[], none⟩ bgGoodIface) bgNullFnIface)
      bgFailCreateIface) 1).1

/-- Counterexample to C9 as stated: with the id-1 game active, switching to the
unregistered id 99 fails but an active instance remains (the prior pair is left
in place, not removed). -/
theorem bg_switch_game_claim_counterexample :
    (bg_switch_game bgActive 99).2 = false
      ∧ (bg_switch_game bgActive 99).1.current.isSome = true := by
  constructor <;> rfl

/-- C9 (amended). A switch to an unregistered id, or to a registered contract
with a null function, fails and leaves the registry state unchanged (in
particular it activates nothing new, but a previously active instance stays);
a switch to the already-active id succeeds leaving the state unchanged (the
instance is neither destroyed nor re-created); and when creation of the new
instance fails the registry is left with no active game. -/
theorem bg_switch_game_amended {I : Type} :
    (∀ (st : BgState I) (id : ℤ), bg_get_game st id = none →
        bg_switch_game st id = (st, false))
    ∧ (∀ (st : BgState I) (id : ℤ) (iface : GameInterface_t I),
        bg_get_game st id = some iface → bg_iface_invalid iface = true →
        bg_switch_game st id = (st, false))
    ∧ (∀ (st : BgState I) (id : ℤ) (iface : GameInterface_t I),
        bg_get_game st id = some iface → iface.id ≠ GAME_UNDEFINED →
        bg_iface_invalid iface = false → bg_same_active st id = true →
        bg_switch_game st id = (st, true))
    ∧ (∀ (st : BgState I) (id : ℤ) (iface : GameInterface_t I),
        bg_get_game st id = some iface → iface.id ≠ GAME_UNDEFINED →
        bg_iface_invalid iface = false → bg_same_active st id = false →
        iface.create = some none →
        bg_switch_game st id = ({ registry := st.registry, current := none }, false)) := by
  refine ⟨?_, ?_, ?_, ?_⟩
  · intro st id h
    unfold bg_switch_game
    rw [h]
  · intro st id iface h hinv
    unfold bg_switch_game
    rw [h]
    by_cases hid : iface.id = GAME_UNDEFINED
    · simp [hid]
    · simp [hid, hinv]
  · intro st id iface h hid hinv hsame
    unfold bg_switch_game
    rw [h]
    simp [hid, hinv, hsame]
  · intro st id iface h hid hinv hsame hcr
    unfold bg_switch_game
    rw [h]
    simp [hid, hinv, hsame, hcr]

/-- Witness for C9 (amended) on the concrete registry: unregistered id 99,
null-function contract id 2, repeated switch to the active id 1, and the
failing-creation contract id 3. -/
theorem bg_switch_game_amended_witness :
    bg_switch_game bgActive 99 = (bgActive, false)
      ∧ bg_switch_game bgActive 2 = (bgActive, false)
      ∧ bg_switch_game bgActive 1 = (bgActive, true)
      ∧ bg_switch_game bgActive 3 =
          ({ registry := bgActive.registry, current := none }, false) :=
  ⟨bg_switch_game_amended.1 bgActive 99 rfl,
   bg_switch_game_amended.2.1 bgActive 2 bgNullFnIface rfl rfl,
   bg_switch_game_amended.2.2.1 bgActive 1 bgGoodIface rfl (by decide) rfl rfl,
   bg_switch_game_amended.2.2.2 bgActive 3 bgFailCreateIface rfl (by decide) rfl rfl rfl⟩

/- ===================== Tetris core (src/src/brick_game/tetris/) ===================== -/

/-- Playing-field dimensions. The Tetris internals header is not under src/;
the values come from the platform header s21_bgame_cmn.h, which fixes the
BrickGame field at 20 rows by 10 columns. -/
def TETRIS_FIELD_ROWS : ℕ := 20

/-- Number of columns of the Tetris field (see TETRIS_FIELD_ROWS). -/
def TETRIS_FIELD_COLS : ℕ := 10

/-- Number of tetromino types. -/
def TETRIS_NUM_PIECES : ℕ := 7

/-- Number of rotation indices per type. -/
def TETRIS_ROTATIONS : ℕ := 4

/-- Side of the next-piece preview matrix (4 by 4 per s21_bgame_cmn.h). -/
def TETRIS_NEXT_SIZE : ℕ := 4

/-- Base fall speed at level 1 (defined in s21_tetris_internals.c). -/
def TETRIS_INITIAL_SPEED : ℕ := 1

/-- A row-major integer matrix: the locked field, a 4 by 4 bitmap, or the
preview buffer. -/
abbrev TetrisField := List (List ℤ)

/-- All-zero rows-by-cols matrix. -/
def zeroMatrix (rows cols : ℕ) : TetrisField :=
  List.replicate rows (List.replicate cols 0)

/-- Cell read field[r][c]; only evaluated after the bounds checks the C code
performs, so the out-of-range default 0 is never observed on well-formed data. -/
def cellAt (field : TetrisField) (r c : ℤ) : ℤ :=
  (field.getD r.toNat []).getD c.toNat 0

/-- One occupancy value of a 4 by 4 bitmap. -/
def shapeCell (shape : List (List ℤ)) (r c : ℕ) : ℤ :=
  (shape.getD r []).getD c 0

/-- Quarter-turn of a 4 by 4 bitmap, used to derive the rotation variants of
the modelled tetromino table. -/
def rotateShapeCW (shape : List (List ℤ)) : List (List ℤ) :=
  (List.range 4).map fun r => (List.range 4).map fun c => shapeCell shape (3 - c) r

/-- Modelled from the spec: TETROMINO_DATA, the fixed table indexed by type and
rotation of 4 by 4 occupancy bitmaps. The header holding the concrete bitmaps
is not under src/; the table is modelled with the standard seven tetrominoes
(I, O, T, S, Z, J, L), each rotation obtained by quarter-turns of the base
bitmap. No claim below depends on the concrete bitmap contents. -/
def TETROMINO_DATA : List (List (List (List ℤ))) :=
  [[[0, 0, 0, 0], [1, 1, 1, 1], [0, 0, 0, 0], [0, 0, 0, 0]],
   [[0, 0, 0, 0], [0, 1, 1, 0], [0, 1, 1, 0], [0, 0, 0, 0]],
   [[0, 1, 0, 0], [1, 1, 1, 0], [0, 0, 0, 0], [0, 0, 0, 0]],
   [[0, 1, 1, 0], [1, 1, 0, 0], [0, 0, 0, 0], [0, 0, 0, 0]],
   [[1, 1, 0, 0], [0, 1, 1, 0], [0, 0, 0, 0], [0, 0, 0, 0]],
   [[1, 0, 0, 0], [1, 1, 1, 0], [0, 0, 0, 0], [0, 0, 0, 0]],
   [[0, 0, 1, 0], [1, 1, 1, 0], [0, 0, 0, 0], [0, 0, 0, 0]]].map
    fun b => [b, rotateShapeCW b, rotateShapeCW (rotateShapeCW b),
              rotateShapeCW (rotateShapeCW (rotateShapeCW b))]

/-- Embedding of tetris_getPieceData: the bitmap for a (type, rotation) pair,
none outside the valid ranges (the C negative-index checks are subsumed by the
Nat argument types). -/
def tetris_getPieceData (type rotation : ℕ) : Option (List (List ℤ)) :=
  if type < TETRIS_NUM_PIECES ∧ rotation < TETRIS_ROTATIONS then
    some ((TETROMINO_DATA.getD type []).getD rotation [])
  else none

/-- Embedding of TetrisPiece: type, rotation and field-space origin. -/
structure TetrisPiece where
  type : ℕ
  rotation : ℕ
  x : ℤ
  y : ℤ
deriving DecidableEq

/-- Embedding of the TetrisGame context fields (everything except the embedded
fsm_t, which is carried by the generic fsm_t structure whose ctx this is).
The public GameInfo_t numeric fields are flattened in (score, level, speed,
pause, info_high_score); the GameInfo_t view matrix is a pure projection and is
computed on demand by tetris_update_info_view. The C library rand() is the
oracle rand_seq consumed at rand_idx. -/
structure TetrisCore where
  field_storage : TetrisField
  next_storage : TetrisField
  current : TetrisPiece
  next : TetrisPiece
  score : ℕ
  high_score : ℕ
  info_high_score : ℕ
  level : ℕ
  speed : ℕ
  pause : Bool
  lines_cleared : ℕ
  game_over : Bool
  started : Bool
  rand_seq : ℕ → ℕ
  rand_idx : ℕ

/-- One rand() draw from the oracle. -/
def tetris_rand (g : TetrisCore) : ℕ × TetrisCore :=
  (g.rand_seq g.rand_idx, { g with rand_idx := g.rand_idx + 1 })

/-- Embedding of tetris_clear_field (the info view is recomputed on demand, so
only the locked storage is kept). -/
def tetris_clear_field (g : TetrisCore) : TetrisCore :=
  { g with field_storage := zeroMatrix TETRIS_FIELD_ROWS TETRIS_FIELD_COLS }

/-- Embedding of tetris_clear_next. -/
def tetris_clear_next (g : TetrisCore) : TetrisCore :=
  { g with next_storage := zeroMatrix TETRIS_NEXT_SIZE TETRIS_NEXT_SIZE }

/-- Embedding of tetris_update_next_preview: clear the preview, then copy the
nonzero bitmap cells of the next piece (writing the nonzero cells of a 4 by 4
bitmap over a zeroed 4 by 4 buffer reproduces the bitmap). -/
def tetris_update_next_preview (g : TetrisCore) : TetrisCore :=
  match tetris_getPieceData g.next.type g.next.rotation with
  | none => tetris_clear_next g
  | some shape => { g with next_storage := shape }

/-- Embedding of tetris_generate_next_piece: uniform random type and rotation
from two rand() draws, spawn origin x = cols/2 - 2, y = 0. -/
def tetris_generate_next_piece (g : TetrisCore) : TetrisCore :=
  let p1 := tetris_rand g
  let p2 := tetris_rand p1.2
  { p2.2 with
    next := ⟨p1.1 % TETRIS_NUM_PIECES, p2.1 % TETRIS_ROTATIONS,
             (TETRIS_FIELD_COLS : ℤ) / 2 - 2, 0⟩ }

/-- The loop body of tetris_check_collision for one bitmap cell (r, c): an
occupied cell collides when its column is outside the horizontal bounds;
otherwise a cell above the visible field (field row < 0) is skipped; otherwise
it collides at or below the floor or on an occupied field cell. -/
def tetris_collision_cell (field : TetrisField) (shape : List (List ℤ))
    (x y : ℤ) (r c : ℕ) : Bool :=
  decide (shapeCell shape r c ≠ 0) &&
    (if x + (c : ℤ) < 0 ∨ (TETRIS_FIELD_COLS : ℤ) ≤ x + (c : ℤ) then true
     else if y + (r : ℤ) < 0 then false
     else if (TETRIS_FIELD_ROWS : ℤ) ≤ y + (r : ℤ) then true
     else decide (cellAt field (y + (r : ℤ)) (x + (c : ℤ)) ≠ 0))

/-- Embedding of tetris_check_collision, parameterized by the 4 by 4 bitmap the
C code reads through the tetris_getPieceData pointer. -/
def tetris_check_collision (field : TetrisField) (shape : List (List ℤ))
    (x y : ℤ) : Bool :=
  (List.range 4).any fun r =>
    (List.range 4).any fun c => tetris_collision_cell field shape x y r c

/-- tetris_check_collision applied to a TetrisPiece of a game: a null bitmap
(invalid type or rotation) counts as a collision, as in the C code. -/
def tetris_check_collision_piece (g : TetrisCore) (p : TetrisPiece) : Bool :=
  match tetris_getPieceData p.type p.rotation with
  | none => true
  | some shape => tetris_check_collision g.field_storage shape p.x p.y

/-- Write v at field[r][c]. -/
def listSet2 (field : TetrisField) (r c : ℕ) (v : ℤ) : TetrisField :=
  field.set r ((field.getD r []).set c v)

/-- Embedding of tetris_lock_piece: burn the nonzero bitmap cells of the
current piece into the locked field, silently skipping out-of-bounds cells. -/
def tetris_lock_piece (g : TetrisCore) : TetrisCore :=
  match tetris_getPieceData g.current.type g.current.rotation with
  | none => g
  | some shape =>
      { g with field_storage :=
          (List.range 4).foldl (fun f r =>
            (List.range 4).foldl (fun f c =>
              if shapeCell shape r c ≠ 0 then
                let fr : ℤ := g.current.y + (r : ℤ)
                let fc : ℤ := g.current.x + (c : ℤ)
                if 0 ≤ fr ∧ fr < (TETRIS_FIELD_ROWS : ℤ) ∧
                    0 ≤ fc ∧ fc < (TETRIS_FIELD_COLS : ℤ) then
                  listSet2 f fr.toNat fc.toNat (shapeCell shape r c)
                else f
              else f) f) g.field_storage }

/-- Embedding of tetris_is_line_full (reading the field component of the
game): a row inside the field all of whose cells are nonzero. -/
def tetris_is_line_full (field : TetrisField) (row : ℤ) : Bool :=
  if row < 0 ∨ (TETRIS_FIELD_ROWS : ℤ) ≤ row then false
  else (List.range TETRIS_FIELD_COLS).all fun c =>
    decide ((field.getD row.toNat []).getD c 0 ≠ 0)

/-- Embedding of tetris_clear_full_lines on the field component. Step 1 scans
every row and collects the full ones; step 2 is one memmove copying the rows
starting at first_full + full_count down onto first_full (the memmove is given
contiguous-2D-array semantics: the C field is a per-row-allocated int**, so the
multi-row memmove actually overruns each row buffer; the contiguous reading is
the deterministic intent of the statement); step 3 zero-fills the last
full_count rows. Returns the number of full rows found. -/
def tetris_clear_full_lines (field : TetrisField) : TetrisField × ℕ :=
  let full_lines := (List.range TETRIS_FIELD_ROWS).filter
    fun (r : ℕ) => tetris_is_line_full field (r : ℤ)
  match full_lines with
  | [] => (field, 0)
  | first_full :: _ =>
      let full_count := full_lines.length
      (((field.take first_full ++ field.drop (first_full + full_count)).take
          (TETRIS_FIELD_ROWS - full_count))
        ++ List.replicate full_count (List.replicate TETRIS_FIELD_COLS 0),
       full_count)

/-- Embedding of tetris_update_high_score. -/
def tetris_update_high_score (g : TetrisCore) : TetrisCore :=
  if g.high_score < g.score then
    { g with high_score := g.score, info_high_score := g.score }
  else { g with info_high_score := g.high_score }

/-- Embedding of tetris_apply_cleared_lines: guard 1..4 lines, accumulate the
cleared-lines counter, add the fixed score bonus, recompute level and speed,
refresh the high score. -/
def tetris_apply_cleared_lines (g : TetrisCore) (lines : ℕ) : TetrisCore :=
  if lines = 0 ∨ 4 < lines then g
  else
    let lc := g.lines_cleared + lines
    let bonus : ℕ :=
      if lines = 1 then 100 else if lines = 2 then 300
      else if lines = 3 then 700 else 1500
    let level := 1 + lc / 10
    tetris_update_high_score
      { g with lines_cleared := lc, score := g.score + bonus, level := level,
               speed := TETRIS_INITIAL_SPEED + level - 1 }

/-- Embedding of tetris_move_piece: move the current piece by (dx, dy) unless
the candidate collides, in which case the game is left unchanged. -/
def tetris_move_piece (g : TetrisCore) (dx dy : ℤ) : TetrisCore × Bool :=
  let tmp := { g.current with x := g.current.x + dx, y := g.current.y + dy }
  if tetris_check_collision_piece g tmp then (g, false)
  else ({ g with current := tmp }, true)

/-- Embedding of tetris_rotate_piece (only ever called with direction 1). -/
def tetris_rotate_piece (g : TetrisCore) (direction : ℕ) : TetrisCore × Bool :=
  let tmp := { g.current with
    rotation := (g.current.rotation + direction) % TETRIS_ROTATIONS }
  if tetris_check_collision_piece g tmp then (g, false)
  else ({ g with current := tmp }, true)

/-- Embedding of tetris_spawn_piece: promote next to current, draw a fresh
next, refresh the preview, and flag game over if the spawn position collides. -/
def tetris_spawn_piece (g : TetrisCore) : TetrisCore :=
  let g1 := tetris_update_next_preview
    (tetris_generate_next_piece { g with current := g.next })
  if tetris_check_collision_piece g1 g1.current then { g1 with game_over := true }
  else g1

/-- The Tetris FSM states. -/
inductive TetrisState
  | INIT | SPAWN | FALL | LOCK | PAUSED | GAME_OVER
deriving DecidableEq

/-- The Tetris FSM events. TETRIS_EVT_NONE is the reserved epsilon event
(numeric value 0 = FSM_EVENT_NONE in the C code, which is why
tetris_handle_input can filter it with a truthiness test). -/
inductive TetrisEvent
  | NONE | START | TICK | MOVE_LEFT | MOVE_RIGHT | ROTATE
  | MOVE_DOWN | DROP | PAUSE_TOGGLE | TERMINATE
deriving DecidableEq

/-- Embedding of the on_enter_init callback: reset score, level, speed, flags,
the current piece, both matrices, and draw a fresh next piece with its
preview. -/
def on_enter_init (g : TetrisCore) : TetrisCore :=
  tetris_update_next_preview (tetris_generate_next_piece (tetris_clear_next
    (tetris_clear_field
      { g with lines_cleared := 0, game_over := false, started := true,
               score := 0, level := 1, speed := TETRIS_INITIAL_SPEED,
               pause := false, info_high_score := g.high_score,
               current := ⟨0, 0, 0, 0⟩ })))

/-- Embedding of the on_enter_spawn callback. -/
def on_enter_spawn (g : TetrisCore) : TetrisCore :=
  tetris_spawn_piece { g with pause := false }

/-- Embedding of the on_enter_lock callback: burn the piece, clear the full
lines, and apply scoring when at least one line was cleared. -/
def on_enter_lock (g : TetrisCore) : TetrisCore :=
  let g1 := tetris_lock_piece g
  let p := tetris_clear_full_lines g1.field_storage
  let g2 := { g1 with field_storage := p.1 }
  if 0 < p.2 then tetris_apply_cleared_lines g2 p.2 else g2

/-- Embedding of the on_enter_paused callback. -/
def on_enter_paused (g : TetrisCore) : TetrisCore := { g with pause := true }

/-- Embedding of the on_exit_paused callback. -/
def on_exit_paused (g : TetrisCore) : TetrisCore := { g with pause := false }

/-- Embedding of the on_enter_game_over callback. -/
def on_enter_game_over (g : TetrisCore) : TetrisCore := { g with game_over := true }

/-- Embedding of the tetris_transitions table, in source order. -/
def tetris_transitions : List (fsm_transition_t TetrisState TetrisEvent TetrisCore) :=
  [⟨.INIT, .START, .SPAWN, none, some on_enter_spawn⟩,
   ⟨.SPAWN, .TICK, .FALL, none, none⟩,
   ⟨.SPAWN, .NONE, .GAME_OVER, none, some on_enter_game_over⟩,
   ⟨.FALL, .TICK, .LOCK, none, some on_enter_lock⟩,
   ⟨.FALL, .MOVE_DOWN, .LOCK, none, some on_enter_lock⟩,
   ⟨.FALL, .DROP, .LOCK, none, some on_enter_lock⟩,
   ⟨.FALL, .MOVE_LEFT, .FALL, none, none⟩,
   ⟨.FALL, .MOVE_RIGHT, .FALL, none, none⟩,
   ⟨.FALL, .ROTATE, .FALL, none, none⟩,
   ⟨.FALL, .PAUSE_TOGGLE, .PAUSED, none, some on_enter_paused⟩,
   ⟨.PAUSED, .PAUSE_TOGGLE, .FALL, some on_exit_paused, none⟩,
   ⟨.FALL, .TERMINATE, .GAME_OVER, none, some on_enter_game_over⟩,
   ⟨.LOCK, .TICK, .SPAWN, none, some on_enter_spawn⟩,
   ⟨.GAME_OVER, .NONE, .INIT, none, some on_enter_init⟩]

/-- A Tetris game instance: the generic FSM whose context is the TetrisCore. -/
abbrev TetrisGame := fsm_t TetrisState TetrisEvent TetrisCore

/-- Embedding of tetris_game_create followed by tetris_game_reset: a
zero-initialized core (calloc), a high score of 0 (no score file is modelled),
the direct on_enter_init call, and fsm_init at TETRIS_STATE_INIT. -/
def tetris_game_create (rand_seq : ℕ → ℕ) : TetrisGame :=
  { transitions := tetris_transitions,
    current := .INIT,
    ctx := on_enter_init
      { field_storage := zeroMatrix TETRIS_FIELD_ROWS TETRIS_FIELD_COLS,
        next_storage := zeroMatrix TETRIS_NEXT_SIZE TETRIS_NEXT_SIZE,
        current := ⟨0, 0, 0, 0⟩, next := ⟨0, 0, 0, 0⟩,
        score := 0, high_score := 0, info_high_score := 0,
        level := 0, speed := 0, pause := false, lines_cleared := 0,
        game_over := false, started := false,
        rand_seq := rand_seq, rand_idx := 0 },
    processing := false }

/-- The hard-drop loop of tetris_process_fall_input, fuel-bounded. The C while
loop terminates because every tetromino bitmap is nonempty and each successful
step increases y by one until the floor check at row TETRIS_FIELD_ROWS fires;
a fuel of rows + 8 covers any piece whose origin starts at y >= -8 (reachable
pieces spawn at y = 0 and y never decreases), so the fuelled function agrees
with the C loop on every reachable state. -/
def tetris_hard_drop : ℕ → TetrisCore → TetrisCore
  | 0, g => g
  | fuel + 1, g =>
      let p := tetris_move_piece g 0 1
      if p.2 then tetris_hard_drop fuel p.1 else g

/-- Embedding of tetris_process_fall_input: handle movement and rotation in
place (returning the epsilon event so the FSM is skipped), turn a blocked
descent into TICK (which the table routes to LOCK), run the hard drop for
DROP, and pass every other event through. -/
def tetris_process_fall_input (g : TetrisCore) (event : TetrisEvent) :
    TetrisCore × TetrisEvent :=
  match event with
  | .MOVE_LEFT => ((tetris_move_piece g (-1) 0).1, .NONE)
  | .MOVE_RIGHT => ((tetris_move_piece g 1 0).1, .NONE)
  | .ROTATE => ((tetris_rotate_piece g 1).1, .NONE)
  | .TICK =>
      let p := tetris_move_piece g 0 1
      if p.2 then (p.1, .NONE) else (p.1, .TICK)
  | .MOVE_DOWN =>
      let p := tetris_move_piece g 0 1
      if p.2 then (p.1, .NONE) else (p.1, .TICK)
  | .DROP => (tetris_hard_drop (TETRIS_FIELD_ROWS + 8) g, .TICK)
  | e => (g, e)

/-- The tail of tetris_fsm_dispatch: the plain FSM step followed by the
automatic epsilon transition, fired only when the machine sits in SPAWN with
the game-over flag set. -/
def tetris_dispatch_fsm_part (m : TetrisGame) (e : TetrisEvent) : TetrisGame :=
  let m2 := (fsm_process_event m e).1
  if m2.current = .SPAWN ∧ m2.ctx.game_over = true then fsm_update .NONE m2
  else m2

/-- Embedding of tetris_fsm_dispatch: in FALL the event is first filtered
through tetris_process_fall_input (an epsilon result returns at once);
otherwise the event goes to the FSM, then the SPAWN-and-game-over automatic
transition is attempted. -/
def tetris_fsm_dispatch (m : TetrisGame) (event : TetrisEvent) : TetrisGame :=
  if m.current = .FALL then
    let p := tetris_process_fall_input m.ctx event
    if p.2 = .NONE then { m with ctx := p.1 }
    else tetris_dispatch_fsm_part { m with ctx := p.1 } p.2
  else tetris_dispatch_fsm_part m event

/-- The shared user-action taxonomy of s21_bgame.h. -/
inductive UserAction_t
  | Start | Pause | Terminate | Left | Right | Up | Down | Action
deriving DecidableEq

/-- Embedding of tetris_map_action_to_event. -/
def tetris_map_action_to_event (action : UserAction_t) (hold : Bool) : TetrisEvent :=
  match action with
  | .Start => .START
  | .Left => .MOVE_LEFT
  | .Right => .MOVE_RIGHT
  | .Down => if hold then .DROP else .MOVE_DOWN
  | .Action => .ROTATE
  | .Pause => .PAUSE_TOGGLE
  | .Terminate => .TERMINATE
  | .Up => .NONE

/-- Embedding of tetris_handle_input: map the action, drop the epsilon event,
dispatch the rest. -/
def tetris_handle_input (m : TetrisGame) (action : UserAction_t) (hold : Bool) :
    TetrisGame :=
  let evt := tetris_map_action_to_event action hold
  if evt = .NONE then m else tetris_fsm_dispatch m evt

/-- Embedding of tetris_update: every game tick becomes a TICK event. -/
def tetris_update (m : TetrisGame) : TetrisGame :=
  tetris_fsm_dispatch m .TICK

/-- Embedding of tetris_update_info_view, the field snapshot tetris_get_info
returns: the locked cells, overlaid with the current piece except when the
game is over, paused, or the FSM sits in INIT or GAME_OVER. -/
def tetris_update_info_view (m : TetrisGame) : TetrisField :=
  let base := m.ctx.field_storage
  if m.ctx.game_over ∨ m.ctx.pause then base
  else if m.current = .INIT ∨ m.current = .GAME_OVER then base
  else
    match tetris_getPieceData m.ctx.current.type m.ctx.current.rotation with
    | none => base
    | some shape =>
        (List.range 4).foldl (fun f r =>
          (List.range 4).foldl (fun f c =>
            if shapeCell shape r c ≠ 0 then
              let fr : ℤ := m.ctx.current.y + (r : ℤ)
              let fc : ℤ := m.ctx.current.x + (c : ℤ)
              if 0 ≤ fr ∧ fr < (TETRIS_FIELD_ROWS : ℤ) ∧
                  0 ≤ fc ∧ fc < (TETRIS_FIELD_COLS : ℤ) then
                listSet2 f fr.toNat fc.toNat (shapeCell shape r c)
              else f
            else f) f) base

/-- Reference definition following the words of claim C1: remove every fully
occupied row (adjacent or not), shift the remaining rows downward keeping
their relative order, and zero-fill the vacated rows at the top of the field. -/
def tetris_clear_full_lines_spec (field : TetrisField) : TetrisField :=
  let kept := field.filter fun row => !(row.all fun v => decide (v ≠ 0))
  List.replicate (field.length - kept.length) (List.replicate TETRIS_FIELD_COLS 0)
    ++ kept

/-- A field with two non-adjacent full rows (15 and 18) and a single marker
block in row 16; every other cell is empty. -/
def c1FailField : TetrisField :=
  (List.range TETRIS_FIELD_ROWS).map fun r =>
    if r = 15 ∨ r = 18 then List.replicate TETRIS_FIELD_COLS 1
    else if r = 16 then 1 :: List.replicate 9 0
    else List.replicate TETRIS_FIELD_COLS 0

/-- C1 (code-bug evidence). On the field with full rows 15 and 18,
tetris_clear_full_lines counts both full rows, but its single block copy
removes the contiguous rows 15-16 instead of the full rows: the result differs
from the claimed clearing, a full row survives (at index 16), and the non-full
marker row is destroyed, while the claimed clearing leaves no full row. -/
theorem tetris_clear_full_lines_divergence :
    (tetris_clear_full_lines c1FailField).2 = 2
      ∧ (tetris_clear_full_lines c1FailField).1 ≠
          tetris_clear_full_lines_spec c1FailField
      ∧ tetris_is_line_full (tetris_clear_full_lines c1FailField).1 16 = true
      ∧ ((List.range TETRIS_FIELD_ROWS).all fun r =>
          !(tetris_is_line_full (tetris_clear_full_lines_spec c1FailField)
              (r : ℤ))) = true := by
  exact ⟨rfl, by decide, rfl, rfl⟩

theorem tetris_lock_piece_keeps (g : TetrisCore) :
    (tetris_lock_piece g).score = g.score
      ∧ (tetris_lock_piece g).level = g.level
      ∧ (tetris_lock_piece g).speed = g.speed
      ∧ (tetris_lock_piece g).lines_cleared = g.lines_cleared := by
  unfold tetris_lock_piece
  cases tetris_getPieceData g.current.type g.current.rotation <;>
    exact ⟨rfl, rfl, rfl, rfl⟩

theorem tetris_update_high_score_keeps (g : TetrisCore) :
    (tetris_update_high_score g).score = g.score
      ∧ (tetris_update_high_score g).level = g.level
      ∧ (tetris_update_high_score g).speed = g.speed := by
  unfold tetris_update_high_score
  split <;> exact ⟨rfl, rfl, rfl⟩

/-- C5. When locking completes exactly n full rows, n in 1..4 (the count
returned by the full-row scan after the piece is burned in), on_enter_lock
adds exactly 100 / 300 / 700 / 1500 points, sets
level = 1 + cumulative_cleared_lines / 10 (integer division over all lines
cleared so far), and sets speed = base + level - 1 with base the initial
speed. -/
theorem tetris_lock_scoring (g : TetrisCore) (n : ℕ)
    (h1 : 1 ≤ n) (h4 : n ≤ 4)
    (hn : (tetris_clear_full_lines (tetris_lock_piece g).field_storage).2 = n) :
    (on_enter_lock g).score = g.score +
        (if n = 1 then 100 else if n = 2 then 300 else if n = 3 then 700 else 1500)
      ∧ (on_enter_lock g).level = 1 + (g.lines_cleared + n) / 10
      ∧ (on_enter_lock g).speed =
          TETRIS_INITIAL_SPEED + (on_enter_lock g).level - 1 := by
  obtain ⟨hs, hl, hsp, hlc⟩ := tetris_lock_piece_keeps g
  have hpos : 0 < n := h1
  have hguard : ¬(n = 0 ∨ 4 < n) := by omega
  simp only [on_enter_lock, hn, hpos, if_true, tetris_apply_cleared_lines, hguard,
    if_false]
  set gl := tetris_lock_piece g with hgl
  set g2 : TetrisCore :=
    { gl with field_storage := (tetris_clear_full_lines gl.field_storage).1 }
  have h2s : g2.score = g.score := hs
  have h2lc : g2.lines_cleared = g.lines_cleared := hlc
  obtain ⟨uS, uL, uSp⟩ := tetris_update_high_score_keeps
    { g2 with lines_cleared := g2.lines_cleared + n,
              score := g2.score +
                (if n = 1 then 100 else if n = 2 then 300
                 else if n = 3 then 700 else 1500),
              level := 1 + (g2.lines_cleared + n) / 10,
              speed := TETRIS_INITIAL_SPEED + (1 + (g2.lines_cleared + n) / 10) - 1 }
  refine ⟨?_, ?_, ?_⟩
  · rw [uS]; simp [h2s, hs]
  · rw [uL]; simp [h2lc, hlc]
  · rw [uSp, uL]

/-- A game whose field already holds two full bottom rows while the current
piece sits entirely above the visible field (so locking burns nothing), with
9 lines already cleared and a score of 50. -/
def c5Game : TetrisCore :=
  { field_storage := (List.range TETRIS_FIELD_ROWS).map fun r =>
      if 18 ≤ r then List.replicate TETRIS_FIELD_COLS 1
      else List.replicate TETRIS_FIELD_COLS 0,
    next_storage := zeroMatrix TETRIS_NEXT_SIZE TETRIS_NEXT_SIZE,
    current := ⟨0, 0, 0, -5⟩, next := ⟨0, 0, 3, 0⟩,
    score := 50, high_score := 0, info_high_score := 0,
    level := 1, speed := 1, pause := false, lines_cleared := 9,
    game_over := false, started := true,
    rand_seq := fun _ => 0, rand_idx := 0 }

/-- Witness for C5: locking on c5Game clears exactly 2 rows, adding 300
points, raising level to 2 (11 cumulative lines) and speed to base + 1. -/
theorem tetris_lock_scoring_witness :
    (on_enter_lock c5Game).score = c5Game.score +
        (if 2 = 1 then 100 else if 2 = 2 then 300 else if 2 = 3 then 700 else 1500)
      ∧ (on_enter_lock c5Game).level = 1 + (c5Game.lines_cleared + 2) / 10
      ∧ (on_enter_lock c5Game).speed =
          TETRIS_INITIAL_SPEED + (on_enter_lock c5Game).level - 1 :=
  tetris_lock_scoring c5Game 2 (by decide) (by decide) (by decide)

/-- The collision condition for one candidate cell of the piece, as the code
implements it (reference predicate for claim C7): an occupied bitmap cell
collides when its column leaves the horizontal bounds, when its row is at or
below the floor, or when it overlaps a locked cell; a cell with row < 0 is
exempt from the floor and overlap checks but not from the horizontal check. -/
def tetris_collision_cell_spec (field : TetrisField) (shape : List (List ℤ))
    (x y : ℤ) (r c : ℕ) : Prop :=
  shapeCell shape r c ≠ 0 ∧
    ((x + (c : ℤ) < 0 ∨ (TETRIS_FIELD_COLS : ℤ) ≤ x + (c : ℤ))
      ∨ (TETRIS_FIELD_ROWS : ℤ) ≤ y + (r : ℤ)
      ∨ (0 ≤ y + (r : ℤ) ∧ y + (r : ℤ) < (TETRIS_FIELD_ROWS : ℤ)
          ∧ cellAt field (y + (r : ℤ)) (x + (c : ℤ)) ≠ 0))

theorem tetris_collision_cell_iff (field : TetrisField) (shape : List (List ℤ))
    (x y : ℤ) (r c : ℕ) :
    tetris_collision_cell field shape x y r c = true ↔
      tetris_collision_cell_spec field shape x y r c := by
  unfold tetris_collision_cell tetris_collision_cell_spec
  simp only [Bool.and_eq_true, decide_eq_true_eq]
  constructor
  · rintro ⟨hs, hb⟩
    refine ⟨hs, ?_⟩
    by_cases h1 : x + (c : ℤ) < 0 ∨ (TETRIS_FIELD_COLS : ℤ) ≤ x + (c : ℤ)
    · exact Or.inl h1
    · rw [if_neg h1] at hb
      by_cases h2 : y + (r : ℤ) < 0
      · rw [if_pos h2] at hb; simp at hb
      · rw [if_neg h2] at hb
        by_cases h3 : (TETRIS_FIELD_ROWS : ℤ) ≤ y + (r : ℤ)
        · exact Or.inr (Or.inl h3)
        · rw [if_neg h3] at hb
          exact Or.inr (Or.inr ⟨by omega, by omega, by simpa using hb⟩)
  · rintro ⟨hs, hb⟩
    refine ⟨hs, ?_⟩
    by_cases h1 : x + (c : ℤ) < 0 ∨ (TETRIS_FIELD_COLS : ℤ) ≤ x + (c : ℤ)
    · rw [if_pos h1]
    · rw [if_neg h1]
      by_cases h2 : y + (r : ℤ) < 0
      · exfalso
        rcases hb with h | h | ⟨h0, _, _⟩
        · exact h1 h
        · omega
        · omega
      · rw [if_neg h2]
        by_cases h3 : (TETRIS_FIELD_ROWS : ℤ) ≤ y + (r : ℤ)
        · rw [if_pos h3]
        · rw [if_neg h3]
          rcases hb with h | h | ⟨_, _, hcell⟩
          · exact absurd h h1
          · exact absurd h h3
          · simpa using hcell

/-- C7 (amended). A candidate placement of a piece bitmap collides (and a
candidate move is therefore rejected with the game unchanged) exactly when
some occupied bitmap cell violates the per-cell condition of
tetris_collision_cell_spec; cells with row < 0 are exempt from the floor and
overlap checks, but the horizontal-bounds check applies to them too. -/
theorem tetris_collision_characterization :
    (∀ (field : TetrisField) (shape : List (List ℤ)) (x y : ℤ),
        tetris_check_collision field shape x y = true ↔
          ∃ r ∈ List.range 4, ∃ c ∈ List.range 4,
            tetris_collision_cell_spec field shape x y r c)
    ∧ (∀ (g : TetrisCore) (dx dy : ℤ),
        (tetris_move_piece g dx dy).2 = false → (tetris_move_piece g dx dy).1 = g) := by
  constructor
  · intro field shape x y
    unfold tetris_check_collision
    simp only [List.any_eq_true, tetris_collision_cell_iff]
  · intro g dx dy
    simp only [tetris_move_piece]
    split_ifs with hc
    · intro _; rfl
    · intro h; simp at h

/-- The bitmap with occupied cells (0,0) and (1,1), realizing the C7
counterexample. -/
def c7DiagShape : List (List ℤ) :=
  [[1, 0, 0, 0], [0, 1, 0, 0], [0, 0, 0, 0], [0, 0, 0, 0]]

/-- Reference predicate following the words of claim C7 as stated: candidate
cells with row < 0 are exempt from all three collision checks, including the
horizontal one. -/
def tetris_collision_claim_spec (field : TetrisField) (shape : List (List ℤ))
    (x y : ℤ) : Prop :=
  ∃ r ∈ List.range 4, ∃ c ∈ List.range 4,
    shapeCell shape r c ≠ 0 ∧ 0 ≤ y + (r : ℤ) ∧
      ((x + (c : ℤ) < 0 ∨ (TETRIS_FIELD_COLS : ℤ) ≤ x + (c : ℤ))
        ∨ (TETRIS_FIELD_ROWS : ℤ) ≤ y + (r : ℤ)
        ∨ cellAt field (y + (r : ℤ)) (x + (c : ℤ)) ≠ 0)

/-- Counterexample to C7 as stated: on an empty field, the diagonal bitmap at
(x, y) = (-1, -1) is rejected by the code (its row -1 cell sits at column -1,
and the horizontal check fires before the row < 0 exemption), yet no occupied
cell with row >= 0 violates any check, so the claimed characterization calls
this candidate acceptable. -/
theorem tetris_collision_claim_counterexample :
    tetris_check_collision (zeroMatrix TETRIS_FIELD_ROWS TETRIS_FIELD_COLS)
        c7DiagShape (-1) (-1) = true
      ∧ ¬ tetris_collision_claim_spec
          (zeroMatrix TETRIS_FIELD_ROWS TETRIS_FIELD_COLS) c7DiagShape (-1) (-1) := by
  constructor
  · rfl
  · unfold tetris_collision_claim_spec
    decide

/-- A game whose current piece is the horizontal I tetromino at the left wall. -/
def c7Game : TetrisCore :=
  { field_storage := zeroMatrix TETRIS_FIELD_ROWS TETRIS_FIELD_COLS,
    next_storage := zeroMatrix TETRIS_NEXT_SIZE TETRIS_NEXT_SIZE,
    current := ⟨0, 0, 0, 0⟩, next := ⟨0, 0, 3, 0⟩,
    score := 0, high_score := 0, info_high_score := 0,
    level := 1, speed := 1, pause := false, lines_cleared := 0,
    game_over := false, started := true,
    rand_seq := fun _ => 0, rand_idx := 0 }

/-- Witness for C7 (amended): a move into the left wall is rejected and leaves
the game unchanged. -/
theorem tetris_collision_characterization_witness :
    (tetris_move_piece c7Game (-1) 0).1 = c7Game :=
  tetris_collision_characterization.2 c7Game (-1) 0 (by decide)

/-- No entry of the Tetris transition table matches TETRIS_STATE_GAME_OVER
together with a non-epsilon event: the single exit from GAME_OVER is the
epsilon entry (GAME_OVER, TETRIS_EVT_NONE) -> INIT. -/
theorem tetris_no_transition_from_game_over (e : TetrisEvent) (he : e ≠ .NONE) :
    fsm_find tetris_transitions .GAME_OVER e = none := by
  cases e <;> first | rfl | exact absurd rfl he

theorem fsm_process_event_no_match {S E C : Type} [DecidableEq S] [DecidableEq E]
    (m : fsm_t S E C) (e : E) (h : fsm_find m.transitions m.current e = none) :
    fsm_process_event m e = (m, false) := by
  unfold fsm_process_event
  by_cases hp : m.processing
  · rw [if_pos hp]
  · rw [if_neg hp, h]

/-- In GAME_OVER, tetris_fsm_dispatch of any non-epsilon event is the
identity: the FALL pre-processing does not apply, no table entry matches, and
the automatic SPAWN transition is not attempted. -/
theorem tetris_fsm_dispatch_game_over (m : TetrisGame) (e : TetrisEvent)
    (ht : m.transitions = tetris_transitions)
    (hcur : m.current = .GAME_OVER) (he : e ≠ .NONE) :
    tetris_fsm_dispatch m e = m := by
  have hfall : ¬ m.current = TetrisState.FALL := by rw [hcur]; intro h; cases h
  have hnm : fsm_find m.transitions m.current e = none := by
    rw [ht, hcur]
    exact tetris_no_transition_from_game_over e he
  unfold tetris_fsm_dispatch
  rw [if_neg hfall]
  unfold tetris_dispatch_fsm_part
  rw [fsm_process_event_no_match m e hnm]
  have hspawn : ¬ (m.current = TetrisState.SPAWN ∧ m.ctx.game_over = true) := by
    rintro ⟨h, -⟩
    rw [hcur] at h
    cases h
  rw [if_neg hspawn]

/-- One call through the public per-game Tetris entry points: either
tetris_handle_input with an action and hold flag, or tetris_update. -/
inductive TetrisOp
  | input (a : UserAction_t) (hold : Bool)
  | update

/-- Run a sequence of public entry-point calls. -/
def tetris_apply_ops (m : TetrisGame) (ops : List TetrisOp) : TetrisGame :=
  ops.foldl (fun m op =>
    match op with
    | .input a hold => tetris_handle_input m a hold
    | .update => tetris_update m) m

/-- In GAME_OVER every single public call is the identity on the whole game. -/
theorem tetris_step_game_over (m : TetrisGame)
    (ht : m.transitions = tetris_transitions)
    (hcur : m.current = .GAME_OVER) :
    (∀ (a : UserAction_t) (hold : Bool), tetris_handle_input m a hold = m)
      ∧ tetris_update m = m := by
  constructor
  · intro a hold
    unfold tetris_handle_input
    by_cases he : tetris_map_action_to_event a hold = TetrisEvent.NONE
    · rw [if_pos he]
    · rw [if_neg he]
      exact tetris_fsm_dispatch_game_over m _ ht hcur he
  · exact tetris_fsm_dispatch_game_over m .TICK ht hcur (by intro h; cases h)

theorem tetris_apply_ops_game_over (m : TetrisGame)
    (ht : m.transitions = tetris_transitions)
    (hcur : m.current = .GAME_OVER) (ops : List TetrisOp) :
    tetris_apply_ops m ops = m := by
  induction ops with
  | nil => rfl
  | cons op ops ih =>
      obtain ⟨hin, hup⟩ := tetris_step_game_over m ht hcur
      cases op with
      | input a hold =>
          show tetris_apply_ops (tetris_handle_input m a hold) ops = m
          rw [hin a hold]
          exact ih
      | update =>
          show tetris_apply_ops (tetris_update m) ops = m
          rw [hup]
          exact ih

/-- C10. Once the Tetris FSM of a game built on the Tetris transition table
sits in TETRIS_STATE_GAME_OVER, no sequence of public entry-point calls
(tetris_handle_input with any actions, tetris_update in any interleaving)
ever leaves that state: tetris_handle_input filters the epsilon event and the
table has no (GAME_OVER, e) entry for a non-epsilon e, while the epsilon exit
(GAME_OVER, TETRIS_EVT_NONE) -> INIT can fire only through the fsm_update call
that tetris_fsm_dispatch issues solely in SPAWN with game_over set. -/
theorem tetris_game_over_absorbing (m : TetrisGame)
    (ht : m.transitions = tetris_transitions)
    (hcur : m.current = .GAME_OVER) (ops : List TetrisOp) :
    (tetris_apply_ops m ops).current = .GAME_OVER := by
  rw [tetris_apply_ops_game_over m ht hcur ops]
  exact hcur

/-- A Tetris game driven into GAME_OVER through the public API: create, Start
(INIT to SPAWN), one update (SPAWN to FALL), Terminate (FALL to GAME_OVER). -/
def c10GameOver : TetrisGame :=
  tetris_apply_ops (tetris_game_create fun _ => 0)
    [.input .Start false, .update, .input .Terminate false]

/-- Witness for C10: after reaching GAME_OVER, a concrete burst of further
calls (Start, update, hard drop, rotate, update) leaves the state GAME_OVER. -/
theorem tetris_game_over_absorbing_witness :
    (tetris_apply_ops c10GameOver
        [.input .Start false, .update, .input .Down true,
         .input .Action false, .update]).current = .GAME_OVER :=
  tetris_game_over_absorbing c10GameOver rfl (by decide)
    [.input .Start false, .update, .input .Down true, .input .Action false, .update]

/- ===================== Snake core (src/src/brick_game/snake/s21_snake_internals.cpp) ===================== -/

/-- Modelled from the spec: field rows of Snake (the C++ header defining
SNAKE_FIELD_ROWS is not under src/); the platform field is 20 by 10 per
s21_bgame_cmn.h. -/
def SNAKE_FIELD_ROWS : ℕ := 20

/-- Modelled from the spec: field columns of Snake (see SNAKE_FIELD_ROWS). -/
def SNAKE_FIELD_COLS : ℕ := 10

/-- Modelled from the spec: the initial body length (the implementation notes
give 3 as the default). -/
def SNAKE_INITIAL_LENGTH : ℕ := 3

/-- Modelled from the spec: the winning body length; the movement routine
describes the win as the whole field area being occupied, hence rows * cols. -/
def SNAKE_MAX_LENGTH : ℕ := 200

/-- Modelled from the spec: the fixed tick-count cooldown in GAME_OVER before
the AUTO_RESET epsilon transition; the header with the value is not under
src/, a representative positive constant is used (every claim below holds for
any positive value). -/
def GAME_OVER_DELAY_TICKS : ℕ := 50

/-- Modelled from the spec: field code of a body segment. -/
def SNAKE_BODY_CELL : ℤ := 1

/-- Modelled from the spec: field code of the head. -/
def SNAKE_HEAD_CELL : ℤ := 2

/-- Modelled from the spec: field code of the apple (a distinct nonzero code;
the in-source comments give both 3 and 255, any nonzero value works the same). -/
def SNAKE_APPLE_CELL : ℤ := 3

/-- The Snake FSM states. -/
inductive SnakeState
  | INIT | MOVE | PAUSED | GAME_OVER
deriving DecidableEq

/-- The Snake FSM events; NONE is the ignored empty event. -/
inductive SnakeEvent
  | NONE | START | PAUSE_TOGGLE | TERMINATE | AUTO_RESET
  | MOVE_LEFT | MOVE_RIGHT | MOVE_UP | MOVE_DOWN
deriving DecidableEq

/-- The movement directions. -/
inductive SnakeDirection
  | UP | DOWN | LEFT | RIGHT
deriving DecidableEq

/-- Embedding of the SnakeGame object: FSM state and guard (the C++ object
holds an fsm_t whose context points back to the object itself, so both are
flattened into one record), the head-first body deque, the occupancy index
keyed by y * cols + x, the apple, current and buffered direction, the public
GameInfo_t numbers, the game-over cooldown bookkeeping, and the mt19937
stream modelled as an oracle. The GameInfo_t field matrix is a pure
projection, recomputed by snake_updateFieldState_. -/
structure SnakeGame where
  fsm_current : SnakeState
  fsm_processing : Bool
  body : List (ℤ × ℤ)
  occupied_cells : Finset ℤ
  apple_x : ℤ
  apple_y : ℤ
  direction : SnakeDirection
  next_direction : SnakeDirection
  score : ℕ
  high_score : ℕ
  level : ℕ
  speed : ℕ
  pause : Bool
  game_over_timer : ℕ
  game_over_handled : Bool
  rng : ℕ → ℕ
  rng_idx : ℕ

/-- The occupancy-index key of a cell: y * SNAKE_FIELD_COLS + x. -/
def snake_cell_key (x y : ℤ) : ℤ := y * (SNAKE_FIELD_COLS : ℤ) + x

/-- Embedding of rebuildOccupiedCells_: full reconstruction of the index from
the body. -/
def snake_rebuildOccupiedCells_ (g : SnakeGame) : SnakeGame :=
  { g with occupied_cells := (g.body.map fun s => snake_cell_key s.1 s.2).toFinset }

/-- Embedding of updateOccupiedCells_, exactly as coded: whenever the body has
more than one segment, erase the key of the CURRENT last segment (body.back()
at call time), then insert the key of the current front segment. (The C++
front() call on an empty body would be undefined; the only caller guards
non-emptiness, and the embedding skips the insert on an empty body.) -/
def snake_updateOccupiedCells_ (g : SnakeGame) : SnakeGame :=
  let g1 :=
    if 1 < g.body.length then
      let tail := (g.body.getLast?).getD (0, 0)
      { g with occupied_cells := g.occupied_cells.erase (snake_cell_key tail.1 tail.2) }
    else g
  match g1.body.head? with
  | some h => { g1 with occupied_cells := insert (snake_cell_key h.1 h.2) g1.occupied_cells }
  | none => g1

/-- Embedding of initialize_: reset direction, score, level, speed, flags,
cooldown, apple and body, and clear the occupancy index (the field matrix is a
projection and needs no separate clearing here). -/
def snake_initialize_ (g : SnakeGame) : SnakeGame :=
  { g with direction := .RIGHT, next_direction := .RIGHT,
           score := 0, level := 1, speed := 1, pause := false,
           game_over_handled := false, game_over_timer := 0,
           apple_x := -1, apple_y := -1, body := [], occupied_cells := ∅ }

/-- Embedding of initializeSnake_: horizontal body of the initial length with
the head at (cols / 2, rows / 2) stretching left, directions RIGHT, full
index rebuild. -/
def snake_initializeSnake_ (g : SnakeGame) : SnakeGame :=
  snake_rebuildOccupiedCells_
    { g with
      body := (List.range SNAKE_INITIAL_LENGTH).map fun i =>
        (((SNAKE_FIELD_COLS : ℤ) / 2) - (i : ℤ), (SNAKE_FIELD_ROWS : ℤ) / 2),
      direction := .RIGHT, next_direction := .RIGHT }

/-- The free-cell list built by spawnApple_: every cell, in row-major order,
whose key is not in the occupancy index. -/
def snake_free_cells (g : SnakeGame) : List (ℤ × ℤ) :=
  (List.range SNAKE_FIELD_ROWS).flatMap fun y =>
    (List.range SNAKE_FIELD_COLS).filterMap fun x =>
      if snake_cell_key (x : ℤ) (y : ℤ) ∈ g.occupied_cells then none
      else some ((x : ℤ), (y : ℤ))

/-- Embedding of spawnApple_: place the apple on an oracle-chosen free cell
(the uniform draw in 0..len-1 is modelled as the oracle value mod len, which
reaches every index); when no cell is free fall back to the tail segment, and
on an empty body to the field center. The oracle is consumed only when the
random draw happens, as in the C++ code. -/
def snake_spawnApple_ (g : SnakeGame) : SnakeGame :=
  let free_cells := snake_free_cells g
  if free_cells ≠ [] then
    let idx := g.rng g.rng_idx % free_cells.length
    let cell := free_cells.getD idx (0, 0)
    { g with apple_x := cell.1, apple_y := cell.2, rng_idx := g.rng_idx + 1 }
  else if g.body ≠ [] then
    let tail := (g.body.getLast?).getD (0, 0)
    { g with apple_x := tail.1, apple_y := tail.2 }
  else
    { g with apple_x := (SNAKE_FIELD_COLS : ℤ) / 2, apple_y := (SNAKE_FIELD_ROWS : ℤ) / 2 }

/-- Embedding of updateScore_: level = 1 + score / 10, speed = 100 - level * 5
clamped below at 50 (the Nat truncation of the subtraction agrees with the C
int computation because every clamped value ends at 50 either way). -/
def snake_updateScore_ (g : SnakeGame) : SnakeGame :=
  let level := 1 + g.score / 10
  let speed := 100 - level * 5
  { g with level := level, speed := if speed < 50 then 50 else speed }

/-- Embedding of eatApple_: score + 1, refresh the high score, respawn the
apple. -/
def snake_eatApple_ (g : SnakeGame) : SnakeGame :=
  let g1 := { g with score := g.score + 1 }
  let g2 := if g1.high_score < g1.score then { g1 with high_score := g1.score } else g1
  snake_spawnApple_ g2

/-- Embedding of checkAppleEaten_. -/
def snake_checkAppleEaten_ (g : SnakeGame) (head : ℤ × ℤ) : Bool :=
  decide (head.1 = g.apple_x ∧ head.2 = g.apple_y)

/-- Embedding of checkCollision_: outside the field bounds, or equal to any
body segment from index 1 on (the loop includes the tail). -/
def snake_checkCollision_ (g : SnakeGame) (head : ℤ × ℤ) : Bool :=
  if head.1 < 0 ∨ (SNAKE_FIELD_COLS : ℤ) ≤ head.1
      ∨ head.2 < 0 ∨ (SNAKE_FIELD_ROWS : ℤ) ≤ head.2 then true
  else (g.body.drop 1).any fun s => decide (s.1 = head.1 ∧ s.2 = head.2)

/-- Embedding of the on_state_enter_ callback, dispatching on the state just
entered (read back from the FSM): INIT resets, MOVE clears the pause and (only
on an empty body) places the snake, rebuilds the index and spawns the apple,
PAUSED raises the pause flag, GAME_OVER clears it. -/
def snake_on_state_enter_ (g : SnakeGame) : SnakeGame :=
  match g.fsm_current with
  | .INIT => snake_initialize_ g
  | .MOVE =>
      let g1 := { g with pause := false }
      if g1.body = [] then
        snake_spawnApple_ (snake_rebuildOccupiedCells_ (snake_initializeSnake_ g1))
      else g1
  | .PAUSED => { g with pause := true }
  | .GAME_OVER => { g with pause := false }

/-- One row of the Snake transition table (every entry of the C++ table
carries the callback pair (nullptr, on_state_enter_), so only the state and
event columns vary). -/
structure SnakeTransition where
  src : SnakeState
  event : SnakeEvent
  dst : SnakeState
deriving DecidableEq

/-- Embedding of SnakeGame::transitions_, in source order. -/
def snake_transitions : List SnakeTransition :=
  [⟨.INIT, .START, .MOVE⟩,
   ⟨.MOVE, .PAUSE_TOGGLE, .PAUSED⟩,
   ⟨.PAUSED, .PAUSE_TOGGLE, .MOVE⟩,
   ⟨.MOVE, .TERMINATE, .GAME_OVER⟩,
   ⟨.GAME_OVER, .AUTO_RESET, .INIT⟩]

/-- fsm_process_event instantiated for Snake: the context of the C FSM is the
SnakeGame object itself (which embeds the fsm_t), so the callback receives and
returns the whole record; every table entry has a null exit callback and
on_state_enter_ as enter callback, invoked after the state is assigned and
while the guard is set. -/
def snake_fsm_process_event (g : SnakeGame) (e : SnakeEvent) : SnakeGame × Bool :=
  if g.fsm_processing then (g, false)
  else
    match snake_transitions.find? (fun t => decide (t.src = g.fsm_current ∧ t.event = e)) with
    | some t =>
        let g1 := { g with fsm_processing := true, fsm_current := t.dst }
        let g2 := snake_on_state_enter_ g1
        ({ g2 with fsm_processing := false }, true)
    | none => (g, false)

/-- Embedding of processEvent_: the four direction events only update the
buffered direction; every other non-empty event goes to the FSM. -/
def snake_processEvent_ (g : SnakeGame) (ev : SnakeEvent) : SnakeGame :=
  match ev with
  | .NONE => g
  | .MOVE_LEFT => { g with next_direction := .LEFT }
  | .MOVE_RIGHT => { g with next_direction := .RIGHT }
  | .MOVE_UP => { g with next_direction := .UP }
  | .MOVE_DOWN => { g with next_direction := .DOWN }
  | _ => (snake_fsm_process_event g ev).1

/-- The 180-degree reversal test of move_. -/
def snake_is_reversal (nd d : SnakeDirection) : Bool :=
  decide ((nd = .UP ∧ d = .DOWN) ∨ (nd = .DOWN ∧ d = .UP)
    ∨ (nd = .LEFT ∧ d = .RIGHT) ∨ (nd = .RIGHT ∧ d = .LEFT))

/-- The head displacement of one movement step. -/
def snake_step_head (head : ℤ × ℤ) (d : SnakeDirection) : ℤ × ℤ :=
  match d with
  | .UP => (head.1, head.2 - 1)
  | .DOWN => (head.1, head.2 + 1)
  | .LEFT => (head.1 - 1, head.2)
  | .RIGHT => (head.1 + 1, head.2)

/-- Embedding of move_: adopt the buffered direction unless it reverses,
compute the prospective head, terminate on collision; otherwise push the head,
then either pop the tail (no apple) or eat the apple (score, respawn) and
refresh level and speed, update the occupancy index incrementally, and
terminate with a win once the body reaches the maximum length. -/
def snake_move_ (g : SnakeGame) : SnakeGame :=
  match g.body.head? with
  | none => g
  | some front =>
      let gd := if snake_is_reversal g.next_direction g.direction then g
        else { g with direction := g.next_direction }
      let head := snake_step_head front gd.direction
      if snake_checkCollision_ gd head then snake_processEvent_ gd .TERMINATE
      else
        let ate := snake_checkAppleEaten_ gd head
        let gp := { gd with body := head :: gd.body }
        let ga := if ate then snake_updateScore_ (snake_eatApple_ gp)
          else { gp with body := gp.body.dropLast }
        let go := snake_updateOccupiedCells_ ga
        if SNAKE_MAX_LENGTH ≤ go.body.length then
          let gw := if go.high_score < go.score then { go with high_score := go.score }
            else go
          snake_processEvent_ gw .TERMINATE
        else go

/-- Embedding of SnakeGame::update: in MOVE run one movement step; then, if
the game sits in GAME_OVER with the auto-reset still pending, advance the
cooldown timer and, once it reaches the threshold, fire AUTO_RESET and mark
the reset handled. -/
def snake_update (g : SnakeGame) : SnakeGame :=
  let g1 := if g.fsm_current = SnakeState.MOVE then snake_move_ g else g
  if g1.fsm_current = SnakeState.GAME_OVER ∧ g1.game_over_handled = false then
    let g2 := { g1 with game_over_timer := g1.game_over_timer + 1 }
    if GAME_OVER_DELAY_TICKS ≤ g2.game_over_timer then
      let g3 := snake_processEvent_ g2 .AUTO_RESET
      { g3 with game_over_handled := true }
    else g2
  else g1

/-- Embedding of mapActionToEvent_. -/
def snake_mapActionToEvent_ (action : UserAction_t) : SnakeEvent :=
  match action with
  | .Start => .START
  | .Pause => .PAUSE_TOGGLE
  | .Terminate => .TERMINATE
  | .Left => .MOVE_LEFT
  | .Right => .MOVE_RIGHT
  | .Up => .MOVE_UP
  | .Down => .MOVE_DOWN
  | .Action => .NONE

/-- Embedding of SnakeGame::handle_input (the hold flag is ignored). -/
def snake_handle_input (g : SnakeGame) (action : UserAction_t) (hold : Bool) :
    SnakeGame :=
  let e := snake_mapActionToEvent_ action
  if e = SnakeEvent.NONE then g else snake_processEvent_ g e

/-- Embedding of the constructor reached through SnakeGame::create: a
zero-initialized object, initialize_, a loaded high score of 0 (no score file
is modelled) and fsm_init at INIT with a clear guard. -/
def snake_create (rng : ℕ → ℕ) : SnakeGame :=
  snake_initialize_
    { fsm_current := .INIT, fsm_processing := false, body := [],
      occupied_cells := ∅, apple_x := 0, apple_y := 0,
      direction := .RIGHT, next_direction := .RIGHT,
      score := 0, high_score := 0, level := 0, speed := 0, pause := false,
      game_over_timer := 0, game_over_handled := false,
      rng := rng, rng_idx := 0 }

/-- The visible field as a function of body and apple alone (the data
updateFieldState_ reads): zero everywhere, the apple cell, then the head and
the remaining segments, each written only when inside the field. -/
def snake_field_of (body : List (ℤ × ℤ)) (ax ay : ℤ) : TetrisField :=
  let f0 := zeroMatrix SNAKE_FIELD_ROWS SNAKE_FIELD_COLS
  let f1 := if 0 ≤ ay ∧ ay < (SNAKE_FIELD_ROWS : ℤ) ∧ 0 ≤ ax ∧ ax < (SNAKE_FIELD_COLS : ℤ)
    then listSet2 f0 ay.toNat ax.toNat SNAKE_APPLE_CELL else f0
  match body with
  | [] => f1
  | h :: rest =>
      let f2 := if 0 ≤ h.2 ∧ h.2 < (SNAKE_FIELD_ROWS : ℤ) ∧ 0 ≤ h.1 ∧ h.1 < (SNAKE_FIELD_COLS : ℤ)
        then listSet2 f1 h.2.toNat h.1.toNat SNAKE_HEAD_CELL else f1
      rest.foldl (fun f s =>
        if 0 ≤ s.2 ∧ s.2 < (SNAKE_FIELD_ROWS : ℤ) ∧ 0 ≤ s.1 ∧ s.1 < (SNAKE_FIELD_COLS : ℤ)
        then listSet2 f s.2.toNat s.1.toNat SNAKE_BODY_CELL else f) f2

/-- Embedding of updateFieldState_, the snapshot field snake_get_info
rebuilds before every query. -/
def snake_updateFieldState_ (g : SnakeGame) : TetrisField :=
  snake_field_of g.body g.apple_x g.apple_y

/-- A fresh game after Start and one movement step with an oracle that parked
the apple at (0, 0): the step moves the snake right without eating. -/
def c2Game : SnakeGame :=
  snake_update (snake_handle_input (snake_create fun _ => 0) .Start false)

/-- C2 (code-bug evidence). After one ordinary movement step the occupancy
index already disagrees with the body: the incremental update erases the key
of the list tail as it stands after the pop (cell (4,10), still part of the
body) instead of the vacated cell (3,10), so the index lacks the key of the
body cell (4,10) and keeps the key of the vacated cell (3,10). -/
theorem snake_occupancy_divergence :
    c2Game.body = [(6, 10), (5, 10), (4, 10)]
      ∧ snake_cell_key 4 10 ∈ c2Game.body.map (fun s => snake_cell_key s.1 s.2)
      ∧ snake_cell_key 4 10 ∉ c2Game.occupied_cells
      ∧ snake_cell_key 3 10 ∈ c2Game.occupied_cells
      ∧ (3, 10) ∉ c2Game.body := by
  decide

/-- A fresh game after Start and one movement step with an oracle that placed
the apple directly to the right of the head, so the step eats the apple; the
same oracle value then picks index 103 again at respawn time. -/
def c6Game : SnakeGame :=
  snake_update (snake_handle_input (snake_create fun _ => 103) .Start false)

/-- C6 (code-bug evidence). On the eating step the body does grow by one and
the score does increase, but the respawned apple lands on the new head, a cell
occupied by the body, even though the board is nearly empty: spawnApple_ runs
before the occupancy index learns about the pushed head, so the head cell is
still in its free list. -/
theorem snake_apple_spawn_divergence :
    c6Game.body.length = 4
      ∧ c6Game.score = 1
      ∧ (c6Game.apple_x, c6Game.apple_y) ∈ c6Game.body
      ∧ c6Game.body.length < SNAKE_FIELD_ROWS * SNAKE_FIELD_COLS := by
  decide

theorem snake_game_over_update_step (g : SnakeGame) (h : g.fsm_current = .GAME_OVER) :
    snake_updateFieldState_ (snake_update g) = snake_updateFieldState_ g
      ∨ ((snake_update g).fsm_current = .INIT
          ∧ snake_updateFieldState_ (snake_update g) =
              zeroMatrix SNAKE_FIELD_ROWS SNAKE_FIELD_COLS) := by
  have hm : ¬ g.fsm_current = SnakeState.MOVE := by rw [h]; exact fun hc => by cases hc
  by_cases hH : g.game_over_handled
  · left
    simp [snake_update, hm, hH]
  · have hH' : g.game_over_handled = false := by simpa using hH
    by_cases hT : GAME_OVER_DELAY_TICKS ≤ g.game_over_timer + 1
    · by_cases hp : g.fsm_processing
      · left
        simp [snake_update, hm, h, hH', hT, snake_processEvent_,
          snake_fsm_process_event, hp, snake_updateFieldState_]
      · right
        have hp' : g.fsm_processing = false := by simpa using hp
        constructor
        · simp [snake_update, hm, h, hH', hT, snake_processEvent_,
            snake_fsm_process_event, hp', snake_transitions, List.find?,
            snake_on_state_enter_, snake_initialize_]
        · simp [snake_update, hm, h, hH', hT, snake_processEvent_,
            snake_fsm_process_event, hp', snake_transitions, List.find?,
            snake_on_state_enter_, snake_initialize_, snake_updateFieldState_]
          decide
    · left
      simp [snake_update, hm, h, hH', hT, snake_updateFieldState_]

/-- A fresh Snake game right after Start (apple parked at (0, 0)). -/
def c8SnakeStart : SnakeGame := snake_handle_input (snake_create fun _ => 0) .Start false

/-- The same game after five updates: four moves to the right wall, then the
lethal step; the FSM now sits in GAME_OVER with the cooldown at one tick. -/
def c8SnakeGameOver : SnakeGame := snake_update^[5] c8SnakeStart

/-- Counterexample to C8 as stated: the Snake game has reached GAME_OVER, yet
after GAME_OVER_DELAY_TICKS further update calls (no Start among them) the
visible field differs - the auto-reset epsilon transition fired back to INIT
and blanked the field. -/
theorem snake_game_over_field_changes :
    c8SnakeGameOver.fsm_current = .GAME_OVER
      ∧ snake_updateFieldState_ (snake_update^[GAME_OVER_DELAY_TICKS] c8SnakeGameOver)
          ≠ snake_updateFieldState_ c8SnakeGameOver := by
  constructor
  · decide
  · decide

/-- C8 (amended). Once GAME_OVER is reached: in Tetris, any number of further
update calls leaves the visible snapshot field identical (the game is frozen
until Start); in Snake, each further update either leaves the visible field
identical or - exactly when the auto-reset cooldown expires - moves the FSM
back to INIT and blanks the field, without any Start event. -/
theorem game_over_field_freeze_amended :
    (∀ (m : TetrisGame), m.transitions = tetris_transitions →
        m.current = TetrisState.GAME_OVER → ∀ n : ℕ,
        tetris_update_info_view (tetris_update^[n] m) = tetris_update_info_view m)
    ∧ (∀ g : SnakeGame, g.fsm_current = SnakeState.GAME_OVER →
        snake_updateFieldState_ (snake_update g) = snake_updateFieldState_ g
          ∨ ((snake_update g).fsm_current = SnakeState.INIT
              ∧ snake_updateFieldState_ (snake_update g) =
                  zeroMatrix SNAKE_FIELD_ROWS SNAKE_FIELD_COLS)) := by
  constructor
  · intro m ht hc n
    rw [Function.iterate_fixed (tetris_step_game_over m ht hc).2 n]
  · exact snake_game_over_update_step

/-- A Tetris game driven into GAME_OVER through the public API (create, Start,
update, Terminate), for the C8 witness. -/
def c8TetrisGameOver : TetrisGame :=
  tetris_apply_ops (tetris_game_create fun _ => 0)
    [.input .Start false, .update, .input .Terminate false]

/-- Witness for C8 (amended) on concrete games in GAME_OVER: three Tetris
updates keep the view identical, and one Snake update takes one of the two
described branches. -/
theorem game_over_field_freeze_amended_witness :
    tetris_update_info_view (tetris_update^[3] c8TetrisGameOver) =
        tetris_update_info_view c8TetrisGameOver
      ∧ (snake_updateFieldState_ (snake_update c8SnakeGameOver) =
            snake_updateFieldState_ c8SnakeGameOver
          ∨ ((snake_update c8SnakeGameOver).fsm_current = SnakeState.INIT
              ∧ snake_updateFieldState_ (snake_update c8SnakeGameOver) =
                  zeroMatrix SNAKE_FIELD_ROWS SNAKE_FIELD_COLS)) :=
  ⟨game_over_field_freeze_amended.1 c8TetrisGameOver rfl (by decide) 3,
   game_over_field_freeze_amended.2 c8SnakeGameOver (by decide)⟩
